import Mathlib

/-
  Verification of the cost-model repository and its API cascade logic.

  The embedding mirrors the in-memory store (backend/data/store.ts), the
  frontend cost helper (calculateCost) and the API handlers for model
  creation and cascade deletion (backend/routes/api.ts).  JS numbers are
  modelled as rationals; the store is passed explicitly; generated ids and
  clock readings are parameters.
-/

namespace CostModelApp

/-- Project status of a cost model (TS union draft | approved | archived). -/
inductive Status where
  | draft
  | approved
  | archived
  deriving DecidableEq

/-- A cost model entity (backend/types/models.ts CostModel). -/
structure CostModel where
  id : String
  projectName : String
  projectRef : Option String
  client : Option String
  gifa : Option ℚ
  totalCost : ℚ
  status : Status
  preparedBy : Option String
  createdAt : String
  updatedAt : String
  deriving DecidableEq

/-- A measured-work line item (backend/types/models.ts MeasuredWork).
Units are kept as strings, matching the runtime representation of the
TS string-union type. -/
structure MeasuredWork where
  id : String
  costModelId : String
  elementCode : String
  elementName : String
  description : String
  quantity : ℚ
  unit : String
  unitRate : ℚ
  totalCost : ℚ
  notes : Option String
  createdAt : String
  updatedAt : String
  deriving DecidableEq

/-- One NRM2 template element (backend/types/models.ts NRM2Element). -/
structure NRM2Element where
  code : String
  name : String
  suggestedUnit : String
  description : Option String
  deriving DecidableEq

/-- The in-memory store: the two module-level arrays of store.ts. -/
structure Store where
  costModels : List CostModel
  measuredWorks : List MeasuredWork
  deriving DecidableEq

/-- Replace the first element satisfying p by its image under f, leaving
the rest of the list unchanged.  This models in-place mutation of the
object returned by Array.prototype.find. -/
def updateFirstBy (p : α → Bool) (f : α → α) : List α → List α
  | [] => []
  | x :: xs => if p x then f x :: xs else x :: updateFirstBy p f xs

/-- store.ts getAllModels: returns the models array. -/
def getAllModels (s : Store) : List CostModel :=
  s.costModels

/-- store.ts findModelById: first model with matching id, none on miss. -/
def findModelById (s : Store) (id : String) : Option CostModel :=
  s.costModels.find? (fun model => model.id == id)

/-- store.ts getWorksByModelId: all works whose costModelId matches. -/
def getWorksByModelId (s : Store) (costModelId : String) : List MeasuredWork :=
  s.measuredWorks.filter (fun work => work.costModelId == costModelId)

/-- store.ts findWorkById: first work with matching id, none on miss. -/
def findWorkById (s : Store) (id : String) : Option MeasuredWork :=
  s.measuredWorks.find? (fun work => work.id == id)

/-- Input of store.ts createModel (CostModel without id and timestamps). -/
structure CreateModelData where
  projectName : String
  projectRef : Option String
  client : Option String
  gifa : Option ℚ
  totalCost : ℚ
  status : Status
  preparedBy : Option String
  deriving DecidableEq

/-- store.ts createModel: assigns id and both timestamps, appends. -/
def createModel (s : Store) (data : CreateModelData) (newId now : String) :
    CostModel × Store :=
  let newModel : CostModel :=
    { id := newId
      projectName := data.projectName
      projectRef := data.projectRef
      client := data.client
      gifa := data.gifa
      totalCost := data.totalCost
      status := data.status
      preparedBy := data.preparedBy
      createdAt := now
      updatedAt := now }
  (newModel, { s with costModels := s.costModels ++ [newModel] })

/-- store.ts recalculateModelTotalCost: sums the totalCost of all works of
the model (plain left-fold addition, no rounding), writes the sum into the
model and refreshes updatedAt; none and unchanged store on unknown id. -/
def recalculateModelTotalCost (s : Store) (id now : String) :
    Option CostModel × Store :=
  match findModelById s id with
  | none => (none, s)
  | some model =>
    let works := getWorksByModelId s id
    let total := works.foldl (fun sum work => sum + work.totalCost) 0
    let updated : CostModel := { model with totalCost := total, updatedAt := now }
    let newModels :=
      updateFirstBy (fun m => m.id == id)
        (fun m => { m with totalCost := total, updatedAt := now })
        s.costModels
    (some updated, { s with costModels := newModels })

/-- store.ts deleteModel: removes the model by id, reports whether the
array shrank; does not touch measured works. -/
def deleteModel (s : Store) (id : String) : Bool × Store :=
  let newModels := s.costModels.filter (fun model => model.id != id)
  (decide (newModels.length < s.costModels.length),
    { s with costModels := newModels })

/-- store.ts deleteMeasuredWorksByModelId: removes all works of the model,
returns the number removed. -/
def deleteMeasuredWorksByModelId (s : Store) (costModelId : String) :
    Nat × Store :=
  let newWorks := s.measuredWorks.filter (fun work => work.costModelId != costModelId)
  (s.measuredWorks.length - newWorks.length, { s with measuredWorks := newWorks })

/-- Input of store.ts createWork (MeasuredWork without id, timestamps and
totalCost). -/
structure CreateWorkData where
  costModelId : String
  elementCode : String
  elementName : String
  description : String
  quantity : ℚ
  unit : String
  unitRate : ℚ
  notes : Option String
  deriving DecidableEq

/-- The entity built by store.ts createWork: totalCost is the raw product
quantity * unitRate, id and both timestamps assigned. -/
def newWorkOf (data : CreateWorkData) (newId now : String) : MeasuredWork :=
  { id := newId
    costModelId := data.costModelId
    elementCode := data.elementCode
    elementName := data.elementName
    description := data.description
    quantity := data.quantity
    unit := data.unit
    unitRate := data.unitRate
    totalCost := data.quantity * data.unitRate
    notes := data.notes
    createdAt := now
    updatedAt := now }

/-- store.ts createWork: builds the entity and appends it. -/
def createWork (s : Store) (data : CreateWorkData) (newId now : String) :
    MeasuredWork × Store :=
  let newWork := newWorkOf data newId now
  (newWork, { s with measuredWorks := s.measuredWorks ++ [newWork] })

/-- The partial-update payload of store.ts updateWork: every field of
MeasuredWork except id, costModelId, createdAt, updatedAt and totalCost,
each optional (matching updateMeasuredWorkSchema's allowed field set). -/
structure WorkUpdates where
  elementCode : Option String
  elementName : Option String
  description : Option String
  quantity : Option ℚ
  unit : Option String
  unitRate : Option ℚ
  notes : Option String
  deriving DecidableEq

/-- Object.assign(work, updates): each provided field overwrites the
stored one, absent fields are kept. -/
def applyUpdates (work : MeasuredWork) (updates : WorkUpdates) : MeasuredWork :=
  { work with
      elementCode := updates.elementCode.getD work.elementCode
      elementName := updates.elementName.getD work.elementName
      description := updates.description.getD work.description
      quantity := updates.quantity.getD work.quantity
      unit := updates.unit.getD work.unit
      unitRate := updates.unitRate.getD work.unitRate
      notes := match updates.notes with
        | some n => some n
        | none => work.notes }

/-- The body of store.ts updateWork on the found entity: merge, recompute
totalCost from the post-merge quantity and unitRate when either was
provided, refresh updatedAt. -/
def workAfterUpdate (work : MeasuredWork) (updates : WorkUpdates) (now : String) :
    MeasuredWork :=
  let merged := applyUpdates work updates
  let recalced :=
    if updates.quantity.isSome || updates.unitRate.isSome then
      { merged with totalCost := merged.quantity * merged.unitRate }
    else merged
  { recalced with updatedAt := now }

/-- store.ts updateWork: mutates the first work with matching id in place;
none and unchanged store on unknown id. -/
def updateWork (s : Store) (id : String) (updates : WorkUpdates) (now : String) :
    Option MeasuredWork × Store :=
  match findWorkById s id with
  | none => (none, s)
  | some work =>
    let newWorks :=
      updateFirstBy (fun w => w.id == id)
        (fun w => workAfterUpdate w updates now)
        s.measuredWorks
    (some (workAfterUpdate work updates now), { s with measuredWorks := newWorks })

/-- store.ts deleteWork: removes a single work by id. -/
def deleteWork (s : Store) (id : String) : Bool × Store :=
  let newWorks := s.measuredWorks.filter (fun work => work.id != id)
  (decide (newWorks.length < s.measuredWorks.length),
    { s with measuredWorks := newWorks })

/-- Number.EPSILON of JS: 2 ^ (-52). -/
def eps : ℚ := 1 / 2 ^ 52

/-- JS Math.round on a rational: nearest integer, halves toward plus
infinity. -/
def jsMathRound (x : ℚ) : ℤ :=
  ⌊x + 1 / 2⌋

/-- calculateCost of the frontend cost helper: raw product, then
Math.round((total + Number.EPSILON) * 100) / 100. -/
def calculateCost (quantity unitPrice : ℚ) : ℚ :=
  let q := quantity
  let p := unitPrice
  let total := q * p
  (jsMathRound ((total + eps) * 100) : ℚ) / 100

/-- Modelled from the spec: round2 rounds half-away-from-zero to 2 decimal
places.  This is the comparison target named by the spec, not code of the
repository. -/
def round2 (x : ℚ) : ℚ :=
  if 0 ≤ x then (⌊x * 100 + 1 / 2⌋ : ℚ) / 100
  else -((⌊-x * 100 + 1 / 2⌋ : ℚ) / 100)

/-- The validated body of POST /api/models (createModelSchema output). -/
structure CreateModelInput where
  projectName : String
  projectRef : Option String
  client : Option String
  gifa : Option ℚ
  status : Option Status
  preparedBy : Option String
  deriving DecidableEq

/-- The createWork payload built by the POST /api/models handler for one
NRM2 template element: quantity and unitRate start at zero, the
description falls back to the element name when absent or empty (the JS
or-else on element.description). -/
def workDataOfElement (modelId : String) (element : NRM2Element) :
    CreateWorkData :=
  { costModelId := modelId
    elementCode := element.code
    elementName := element.name
    description := match element.description with
      | some d => if d = "" then element.name else d
      | none => element.name
    quantity := 0
    unit := element.suggestedUnit
    unitRate := 0
    notes := some "Auto-generated from NRM2 defaults" }

/-- The handler's nrm2Elements.map(createWork ...): one createWork per
template element in order, threading the store; wid k names the id
generated for the k-th work. -/
def createWorksFromTemplate (s : Store) (modelId : String)
    (elements : List NRM2Element) (wid : Nat → String) (k : Nat)
    (now : String) : List MeasuredWork × Store :=
  match elements with
  | [] => ([], s)
  | element :: rest =>
    let res := createWork s (workDataOfElement modelId element) (wid k) now
    let resRest := createWorksFromTemplate res.2 modelId rest wid (k + 1) now
    (res.1 :: resRest.1, resRest.2)

/-- POST /api/models handler: createModel with totalCost 0 and default
status draft, then one createWork per NRM2 template element. -/
def createModelHandler (s : Store) (input : CreateModelInput)
    (template : List NRM2Element) (modelId : String) (wid : Nat → String)
    (now : String) : CostModel × List MeasuredWork × Store :=
  let res := createModel s
    { projectName := input.projectName
      projectRef := input.projectRef
      client := input.client
      gifa := input.gifa
      totalCost := 0
      status := input.status.getD Status.draft
      preparedBy := input.preparedBy }
    modelId now
  let resWorks := createWorksFromTemplate res.2 res.1.id template wid 0 now
  (res.1, resWorks.1, resWorks.2)

/-- DELETE /api/models/:id handler: 404 when the model is unknown,
otherwise delete all its works first, then the model, answering 204. -/
def deleteModelHandler (s : Store) (id : String) : Nat × Store :=
  match findModelById s id with
  | none => (404, s)
  | some _ =>
    let s1 := (deleteMeasuredWorksByModelId s id).2
    let s2 := (deleteModel s1 id).2
    (204, s2)

/-
  Helper lemmas.
-/

theorem updateFirstBy_nil (p : α → Bool) (f : α → α) :
    updateFirstBy p f [] = [] := rfl

theorem updateFirstBy_cons (p : α → Bool) (f : α → α) (x : α) (xs : List α) :
    updateFirstBy p f (x :: xs)
      = if p x then f x :: xs else x :: updateFirstBy p f xs := rfl

/-- When the first match exists, updateFirstBy is List.set at its index. -/
theorem updateFirstBy_eq_set (p : α → Bool) (f : α → α) :
    ∀ (l : List α) (a : α), l.find? p = some a →
      ∃ i, ∃ hi : i < l.length,
        l.get ⟨i, hi⟩ = a ∧ updateFirstBy p f l = l.set i (f a)
  | [], a, h => by simp [List.find?] at h
  | x :: xs, a, h => by
    rw [List.find?_cons] at h
    by_cases hp : p x
    · simp only [hp, cond_true, Option.some.injEq] at h
      subst h
      exact ⟨0, Nat.succ_pos _, rfl, by simp [updateFirstBy_cons, hp]⟩
    · simp only [hp, cond_false] at h
      obtain ⟨i, hi, hget, hset⟩ := updateFirstBy_eq_set p f xs a h
      refine ⟨i + 1, Nat.succ_lt_succ hi, hget, ?_⟩
      simp [updateFirstBy_cons, hp, hset]

/-- find? after updateFirstBy, when f preserves the predicate: the found
element is the image of the old one. -/
theorem find?_updateFirstBy (p : α → Bool) (f : α → α)
    (hf : ∀ a, p a = true → p (f a) = true) :
    ∀ l : List α, (updateFirstBy p f l).find? p = (l.find? p).map f
  | [] => rfl
  | x :: xs => by
    by_cases hp : p x
    · simp [updateFirstBy_cons, hp, List.find?_cons, hf x hp]
    · simp [updateFirstBy_cons, hp, List.find?_cons,
        find?_updateFirstBy p f hf xs]

/-- The left fold of store.ts recalculateModelTotalCost is the list sum of
the totalCost fields. -/
theorem foldl_totalCost (l : List MeasuredWork) :
    ∀ a : ℚ, l.foldl (fun sum work => sum + work.totalCost) a
      = a + (l.map (fun w => w.totalCost)).sum := by
  induction l with
  | nil => intro a; simp
  | cons x xs ih =>
    intro a
    simp only [List.foldl_cons, List.map_cons, List.sum_cons, ih]
    ring

/-- Fields of the updated entity: identity and audit fields, and the
merge of each updatable field. -/
theorem workAfterUpdate_fields (w : MeasuredWork) (u : WorkUpdates)
    (now : String) :
    (workAfterUpdate w u now).id = w.id ∧
    (workAfterUpdate w u now).costModelId = w.costModelId ∧
    (workAfterUpdate w u now).createdAt = w.createdAt ∧
    (workAfterUpdate w u now).updatedAt = now ∧
    (workAfterUpdate w u now).elementCode = u.elementCode.getD w.elementCode ∧
    (workAfterUpdate w u now).elementName = u.elementName.getD w.elementName ∧
    (workAfterUpdate w u now).description = u.description.getD w.description ∧
    (workAfterUpdate w u now).quantity = u.quantity.getD w.quantity ∧
    (workAfterUpdate w u now).unit = u.unit.getD w.unit ∧
    (workAfterUpdate w u now).unitRate = u.unitRate.getD w.unitRate := by
  unfold workAfterUpdate applyUpdates
  dsimp only
  split <;> simp

/-- When quantity or unitRate is provided, the updated entity's totalCost
is recomputed from its own post-merge quantity and unitRate. -/
theorem workAfterUpdate_totalCost_recomputed (w : MeasuredWork)
    (u : WorkUpdates) (now : String)
    (h : u.quantity.isSome = true ∨ u.unitRate.isSome = true) :
    (workAfterUpdate w u now).totalCost
      = (workAfterUpdate w u now).quantity
          * (workAfterUpdate w u now).unitRate := by
  unfold workAfterUpdate applyUpdates
  dsimp only
  rw [if_pos]
  rcases h with h | h <;> simp [h]

/-- When neither quantity nor unitRate is provided, totalCost is kept. -/
theorem workAfterUpdate_totalCost_kept (w : MeasuredWork) (u : WorkUpdates)
    (now : String) (hq : u.quantity = none) (hr : u.unitRate = none) :
    (workAfterUpdate w u now).totalCost = w.totalCost := by
  unfold workAfterUpdate applyUpdates
  dsimp only
  rw [if_neg]
  simp [hq, hr]

/-- The work found after updateWork is the updated first match. -/
theorem findWorkById_after_update (s : Store) (id now : String)
    (u : WorkUpdates) (w0 : MeasuredWork)
    (h : s.measuredWorks.find? (fun w => w.id == id) = some w0) :
    findWorkById
        (Store.mk s.costModels
          (updateFirstBy (fun w => w.id == id)
            (fun w => workAfterUpdate w u now) s.measuredWorks)) id
      = some (workAfterUpdate w0 u now) := by
  rw [findWorkById]
  rw [find?_updateFirstBy (fun w : MeasuredWork => w.id == id)
    (fun w : MeasuredWork => workAfterUpdate w u now)
    (fun a ha => by
      show ((workAfterUpdate a u now).id == id) = true
      rw [(workAfterUpdate_fields a u now).1]
      exact ha), h]
  rfl

/-
  Concrete fixtures used by witnesses.
-/

def mId : String := "m1"

def wId : String := "w1"

def wId2 : String := "w2"

def tOld : String := "t0"

def tNew : String := "t1"

def demoModel : CostModel :=
  { id := "m1"
    projectName := "Block A"
    projectRef := none
    client := none
    gifa := none
    totalCost := 0
    status := Status.draft
    preparedBy := none
    createdAt := "t0"
    updatedAt := "t0" }

def demoWork : MeasuredWork :=
  { id := "w1"
    costModelId := "m1"
    elementCode := "2.1"
    elementName := "Substructure"
    description := "Concrete strip foundations"
    quantity := 2
    unit := "m3"
    unitRate := 3
    totalCost := 6
    notes := none
    createdAt := "t0"
    updatedAt := "t0" }

def demoStore : Store :=
  { costModels := [demoModel], measuredWorks := [demoWork] }

def demoWorkData : CreateWorkData :=
  { costModelId := "m1"
    elementCode := "3"
    elementName := "Frame"
    description := "Structural frame works"
    quantity := 4
    unit := "m2"
    unitRate := 5
    notes := none }

/-
  Claim theorems.
-/

/-- C1: for every model id present in the store,
recalculateModelTotalCost sets that model's totalCost to the plain,
unrounded sum of the totalCost fields of exactly the measured works whose
costModelId equals the id, and refreshes the model's updatedAt; for every
id not present it returns none and leaves the store unchanged. -/
theorem recalculateModelTotalCost_spec (s : Store) (id now : String) :
    (∀ m0, findModelById s id = some m0 →
      ∃ m1, (recalculateModelTotalCost s id now).1 = some m1 ∧
        m1.totalCost
          = ((s.measuredWorks.filter (fun w => w.costModelId == id)).map
              (fun w => w.totalCost)).sum ∧
        m1.updatedAt = now ∧
        findModelById (recalculateModelTotalCost s id now).2 id = some m1 ∧
        (recalculateModelTotalCost s id now).2.measuredWorks
          = s.measuredWorks) ∧
    (findModelById s id = none →
      recalculateModelTotalCost s id now = (none, s)) := by
  constructor
  · intro m0 h
    have hsum : (getWorksByModelId s id).foldl
        (fun sum work => sum + work.totalCost) 0
        = ((s.measuredWorks.filter (fun w => w.costModelId == id)).map
            (fun w => w.totalCost)).sum := by
      rw [foldl_totalCost]
      simp [getWorksByModelId]
    refine ⟨{ m0 with
        totalCost := (getWorksByModelId s id).foldl
          (fun sum work => sum + work.totalCost) 0
        updatedAt := now }, ?_, hsum, rfl, ?_, ?_⟩
    · simp [recalculateModelTotalCost, h]
    · have h2 : s.costModels.find? (fun model => model.id == id) = some m0 := h
      simp only [recalculateModelTotalCost, findModelById, h2]
      rw [find?_updateFirstBy (fun model : CostModel => model.id == id)
        (fun m : CostModel => { m with
          totalCost := (getWorksByModelId s id).foldl
            (fun sum work => sum + work.totalCost) 0
          updatedAt := now })
        (fun a ha => ha), h2]
      rfl
    · simp [recalculateModelTotalCost, h]
  · intro h
    simp [recalculateModelTotalCost, h]

/-- Witness for C1 at a concrete one-model, one-work store. -/
theorem recalculateModelTotalCost_spec_witness :
    ∃ m1, (recalculateModelTotalCost demoStore mId tNew).1 = some m1 ∧
      m1.totalCost
        = ((demoStore.measuredWorks.filter (fun w => w.costModelId == mId)).map
            (fun w => w.totalCost)).sum ∧
      m1.updatedAt = tNew ∧
      findModelById (recalculateModelTotalCost demoStore mId tNew).2 mId
        = some m1 ∧
      (recalculateModelTotalCost demoStore mId tNew).2.measuredWorks
        = demoStore.measuredWorks :=
  (recalculateModelTotalCost_spec demoStore mId tNew).1 demoModel (by decide)

/-- C2: createWork stores a work whose totalCost is exactly
quantity * unitRate, with no rounding applied at creation. -/
theorem createWork_totalCost_exact (s : Store) (data : CreateWorkData)
    (newId now : String) (_hq : 0 ≤ data.quantity)
    (_hr : 0 ≤ data.unitRate) :
    ((createWork s data newId now).1).totalCost
      = data.quantity * data.unitRate ∧
    (createWork s data newId now).2.measuredWorks
      = s.measuredWorks ++ [(createWork s data newId now).1] :=
  ⟨rfl, rfl⟩

/-- Witness for C2 at a concrete payload with quantity 4 and rate 5. -/
theorem createWork_totalCost_exact_witness :
    0 ≤ demoWorkData.quantity ∧ 0 ≤ demoWorkData.unitRate ∧
    (((createWork demoStore demoWorkData wId2 tNew).1).totalCost
        = demoWorkData.quantity * demoWorkData.unitRate ∧
      (createWork demoStore demoWorkData wId2 tNew).2.measuredWorks
        = demoStore.measuredWorks
            ++ [(createWork demoStore demoWorkData wId2 tNew).1]) :=
  ⟨by decide, by decide,
    createWork_totalCost_exact demoStore demoWorkData wId2 tNew
      (by decide) (by decide)⟩

/-- C7: on an id matching no model the model lookup returns none, on an id
matching no work the work lookup returns none, and a model with no works
has an empty works list; all three lookups are total Lean functions, which
models that they never throw. -/
theorem lookup_miss_spec (s : Store) (id cid : String) :
    ((∀ m ∈ s.costModels, m.id ≠ id) → findModelById s id = none) ∧
    ((∀ w ∈ s.measuredWorks, w.id ≠ id) → findWorkById s id = none) ∧
    ((∀ w ∈ s.measuredWorks, w.costModelId ≠ cid) →
      getWorksByModelId s cid = []) := by
  refine ⟨?_, ?_, ?_⟩
  · intro h
    rw [findModelById, List.find?_eq_none]
    intro m hm
    simpa using h m hm
  · intro h
    rw [findWorkById, List.find?_eq_none]
    intro w hw
    simpa using h w hw
  · intro h
    rw [getWorksByModelId, List.filter_eq_nil_iff]
    intro w hw
    simpa using h w hw

/-- Witness for C7: an unknown id in the concrete store misses. -/
theorem lookup_miss_spec_witness :
    findModelById demoStore wId2 = none ∧
    findWorkById demoStore wId2 = none ∧
    getWorksByModelId demoStore wId2 = [] :=
  ⟨(lookup_miss_spec demoStore wId2 wId2).1 (by decide),
    (lookup_miss_spec demoStore wId2 wId2).2.1 (by decide),
    (lookup_miss_spec demoStore wId2 wId2).2.2 (by decide)⟩

/-- An update payload carrying only a new quantity. -/
def demoQuantityUpdate : WorkUpdates :=
  { elementCode := none
    elementName := none
    description := none
    quantity := some 7
    unit := none
    unitRate := none
    notes := none }

/-- An update payload carrying only the notes field. -/
def notesOnly (note : String) : WorkUpdates :=
  { elementCode := none
    elementName := none
    description := none
    quantity := none
    unit := none
    unitRate := none
    notes := some note }

def demoNote : String := "checked"

/-- C3: updateWork merges the provided fields into the stored entity and
always refreshes updatedAt; exactly when quantity or unitRate is among the
provided fields it recomputes totalCost as quantity * unitRate from the
post-merge values of both fields (otherwise totalCost is untouched); an
unknown id yields none and leaves the store unchanged. -/
theorem updateWork_spec (s : Store) (id now : String) (u : WorkUpdates) :
    (∀ w0, findWorkById s id = some w0 →
      ∃ w1, (updateWork s id u now).1 = some w1 ∧
        findWorkById (updateWork s id u now).2 id = some w1 ∧
        w1.elementCode = u.elementCode.getD w0.elementCode ∧
        w1.elementName = u.elementName.getD w0.elementName ∧
        w1.description = u.description.getD w0.description ∧
        w1.quantity = u.quantity.getD w0.quantity ∧
        w1.unit = u.unit.getD w0.unit ∧
        w1.unitRate = u.unitRate.getD w0.unitRate ∧
        (w1.notes = match u.notes with
          | some n => some n
          | none => w0.notes) ∧
        w1.updatedAt = now ∧
        ((u.quantity.isSome = true ∨ u.unitRate.isSome = true) →
          w1.totalCost = w1.quantity * w1.unitRate) ∧
        (u.quantity = none → u.unitRate = none →
          w1.totalCost = w0.totalCost)) ∧
    (findWorkById s id = none → updateWork s id u now = (none, s)) := by
  constructor
  · intro w0 h
    have h2 : s.measuredWorks.find? (fun w => w.id == id) = some w0 := h
    obtain ⟨hid, hcm, hcr, hup, hec, hen, hde, hqu, hun, hur⟩ :=
      workAfterUpdate_fields w0 u now
    refine ⟨workAfterUpdate w0 u now, ?_, ?_, hec, hen, hde, hqu, hun, hur,
      ?_, hup, ?_, ?_⟩
    · simp [updateWork, findWorkById, h2]
    · have hfind := findWorkById_after_update s id now u w0 h2
      simp only [updateWork, findWorkById, h2]
      exact hfind
    · unfold workAfterUpdate applyUpdates
      dsimp only
      split <;> rfl
    · intro hsome
      exact workAfterUpdate_totalCost_recomputed w0 u now hsome
    · intro hq hr
      exact workAfterUpdate_totalCost_kept w0 u now hq hr
  · intro h
    have h2 : s.measuredWorks.find? (fun w => w.id == id) = none := h
    simp [updateWork, findWorkById, h2]

/-- Witness for C3: a quantity-only update on the concrete store. -/
theorem updateWork_spec_witness :
    ∃ w1, (updateWork demoStore wId demoQuantityUpdate tNew).1 = some w1 ∧
      findWorkById (updateWork demoStore wId demoQuantityUpdate tNew).2 wId
        = some w1 ∧
      w1.elementCode
        = demoQuantityUpdate.elementCode.getD demoWork.elementCode ∧
      w1.elementName
        = demoQuantityUpdate.elementName.getD demoWork.elementName ∧
      w1.description
        = demoQuantityUpdate.description.getD demoWork.description ∧
      w1.quantity = demoQuantityUpdate.quantity.getD demoWork.quantity ∧
      w1.unit = demoQuantityUpdate.unit.getD demoWork.unit ∧
      w1.unitRate = demoQuantityUpdate.unitRate.getD demoWork.unitRate ∧
      (w1.notes = match demoQuantityUpdate.notes with
        | some n => some n
        | none => demoWork.notes) ∧
      w1.updatedAt = tNew ∧
      ((demoQuantityUpdate.quantity.isSome = true ∨
          demoQuantityUpdate.unitRate.isSome = true) →
        w1.totalCost = w1.quantity * w1.unitRate) ∧
      (demoQuantityUpdate.quantity = none →
        demoQuantityUpdate.unitRate = none →
        w1.totalCost = demoWork.totalCost) :=
  (updateWork_spec demoStore wId tNew demoQuantityUpdate).1 demoWork (by decide)

/-- C9: an update providing only the notes field leaves totalCost,
quantity and unitRate of the work unchanged but refreshes updatedAt. -/
theorem updateWork_notes_only (s : Store) (id now note : String)
    (w0 : MeasuredWork) (h : findWorkById s id = some w0) :
    ∃ w1, (updateWork s id (notesOnly note) now).1 = some w1 ∧
      findWorkById (updateWork s id (notesOnly note) now).2 id = some w1 ∧
      w1.totalCost = w0.totalCost ∧
      w1.quantity = w0.quantity ∧
      w1.unitRate = w0.unitRate ∧
      w1.updatedAt = now := by
  have h2 : s.measuredWorks.find? (fun w => w.id == id) = some w0 := h
  obtain ⟨hid, hcm, hcr, hup, hec, hen, hde, hqu, hun, hur⟩ :=
    workAfterUpdate_fields w0 (notesOnly note) now
  refine ⟨workAfterUpdate w0 (notesOnly note) now, ?_, ?_, ?_, ?_, ?_, hup⟩
  · simp [updateWork, findWorkById, h2]
  · have hfind := findWorkById_after_update s id now (notesOnly note) w0 h2
    simp only [updateWork, findWorkById, h2]
    exact hfind
  · exact workAfterUpdate_totalCost_kept w0 (notesOnly note) now rfl rfl
  · rw [hqu]; rfl
  · rw [hur]; rfl

/-- Witness for C9: the notes-only update on the concrete store. -/
theorem updateWork_notes_only_witness :
    ∃ w1, (updateWork demoStore wId (notesOnly demoNote) tNew).1 = some w1 ∧
      findWorkById (updateWork demoStore wId (notesOnly demoNote) tNew).2 wId
        = some w1 ∧
      w1.totalCost = demoWork.totalCost ∧
      w1.quantity = demoWork.quantity ∧
      w1.unitRate = demoWork.unitRate ∧
      w1.updatedAt = tNew :=
  updateWork_notes_only demoStore wId tNew demoNote demoWork (by decide)

/-- C10: updateWork leaves the target work's id, costModelId and createdAt
unchanged, and leaves the cost models and every other measured work in the
store unchanged: the new works list is the old one with only the first
matching position replaced. -/
theorem updateWork_frame (s : Store) (id now : String) (u : WorkUpdates)
    (w0 : MeasuredWork) (h : findWorkById s id = some w0) :
    ∃ w1 i, ∃ hi : i < s.measuredWorks.length,
      (updateWork s id u now).1 = some w1 ∧
      w1.id = w0.id ∧
      w1.costModelId = w0.costModelId ∧
      w1.createdAt = w0.createdAt ∧
      (updateWork s id u now).2.costModels = s.costModels ∧
      s.measuredWorks.get ⟨i, hi⟩ = w0 ∧
      (updateWork s id u now).2.measuredWorks
        = s.measuredWorks.set i w1 ∧
      ∀ j, j ≠ i → ∀ hj : j < s.measuredWorks.length,
        ∃ hj2 : j < (s.measuredWorks.set i w1).length,
          (s.measuredWorks.set i w1).get ⟨j, hj2⟩
            = s.measuredWorks.get ⟨j, hj⟩ := by
  have h2 : s.measuredWorks.find? (fun w => w.id == id) = some w0 := h
  obtain ⟨i, hi, hget, hset⟩ := updateFirstBy_eq_set
    (fun w : MeasuredWork => w.id == id)
    (fun w : MeasuredWork => workAfterUpdate w u now) s.measuredWorks w0 h2
  obtain ⟨hid, hcm, hcr, hup, hec, hen, hde, hqu, hun, hur⟩ :=
    workAfterUpdate_fields w0 u now
  refine ⟨workAfterUpdate w0 u now, i, hi, ?_, hid, hcm, hcr, ?_, hget,
    ?_, ?_⟩
  · simp [updateWork, findWorkById, h2]
  · simp [updateWork, findWorkById, h2]
  · simp only [updateWork, findWorkById, h2]
    exact hset
  · intro j hji hj
    refine ⟨by simpa using hj, ?_⟩
    simp only [List.get_eq_getElem]
    exact List.getElem_set_ne (Ne.symm hji) _

/-- Witness for C10: the quantity-only update on the concrete store. -/
theorem updateWork_frame_witness :
    ∃ w1 i, ∃ hi : i < demoStore.measuredWorks.length,
      (updateWork demoStore wId demoQuantityUpdate tNew).1 = some w1 ∧
      w1.id = demoWork.id ∧
      w1.costModelId = demoWork.costModelId ∧
      w1.createdAt = demoWork.createdAt ∧
      (updateWork demoStore wId demoQuantityUpdate tNew).2.costModels
        = demoStore.costModels ∧
      demoStore.measuredWorks.get ⟨i, hi⟩ = demoWork ∧
      (updateWork demoStore wId demoQuantityUpdate tNew).2.measuredWorks
        = demoStore.measuredWorks.set i w1 ∧
      ∀ j, j ≠ i → ∀ hj : j < demoStore.measuredWorks.length,
        ∃ hj2 : j < (demoStore.measuredWorks.set i w1).length,
          (demoStore.measuredWorks.set i w1).get ⟨j, hj2⟩
            = demoStore.measuredWorks.get ⟨j, hj⟩ :=
  updateWork_frame demoStore wId tNew demoQuantityUpdate demoWork (by decide)

/-- C5: for a model present in the store, the DELETE-model handler
cascades (works first, then the model), so afterwards the model has no
works and is no longer found, and it answers 204; the repository's
deleteModel by itself leaves the measured works untouched. -/
theorem deleteModel_cascade_spec (s : Store) (id : String) :
    (∀ m0, findModelById s id = some m0 →
      (deleteModelHandler s id).1 = 204 ∧
      getWorksByModelId (deleteModelHandler s id).2 id = [] ∧
      findModelById (deleteModelHandler s id).2 id = none) ∧
    (deleteModel s id).2.measuredWorks = s.measuredWorks := by
  constructor
  · intro m0 h
    refine ⟨?_, ?_, ?_⟩
    · simp [deleteModelHandler, h]
    · have hw : (deleteModelHandler s id).2.measuredWorks
          = s.measuredWorks.filter (fun w => w.costModelId != id) := by
        simp [deleteModelHandler, h, deleteMeasuredWorksByModelId,
          deleteModel]
      rw [getWorksByModelId, hw, List.filter_eq_nil_iff]
      intro w hw2
      have h3 := (List.mem_filter.mp hw2).2
      simp only [bne_iff_ne, ne_eq] at h3
      simp [h3]
    · have hm : (deleteModelHandler s id).2.costModels
          = s.costModels.filter (fun m => m.id != id) := by
        simp [deleteModelHandler, h, deleteMeasuredWorksByModelId,
          deleteModel]
      rw [findModelById, hm, List.find?_eq_none]
      intro m hmm
      have h3 := (List.mem_filter.mp hmm).2
      simp only [bne_iff_ne, ne_eq] at h3
      simp [h3]
  · rfl

/-- Witness for C5: cascade deletion of the concrete model. -/
theorem deleteModel_cascade_spec_witness :
    (deleteModelHandler demoStore mId).1 = 204 ∧
    getWorksByModelId (deleteModelHandler demoStore mId).2 mId = [] ∧
    findModelById (deleteModelHandler demoStore mId).2 mId = none :=
  (deleteModel_cascade_spec demoStore mId).1 demoModel (by decide)

/-- The works created from a template: one per element. -/
theorem createWorksFromTemplate_length (modelId : String)
    (wid : Nat → String) (now : String) :
    ∀ (elements : List NRM2Element) (s : Store) (k : Nat),
      (createWorksFromTemplate s modelId elements wid k now).1.length
        = elements.length
  | [], _, _ => rfl
  | _ :: rest, s, k => by
    simp [createWorksFromTemplate,
      createWorksFromTemplate_length modelId wid now rest _ (k + 1)]

/-- The i-th created work comes from the i-th template element, with the
i-th generated id. -/
theorem createWorksFromTemplate_get (modelId : String) (wid : Nat → String)
    (now : String) :
    ∀ (elements : List NRM2Element) (s : Store) (k i : Nat)
      (hi : i < elements.length),
      ∃ hw : i < (createWorksFromTemplate s modelId elements wid k now).1.length,
        (createWorksFromTemplate s modelId elements wid k now).1.get ⟨i, hw⟩
          = newWorkOf (workDataOfElement modelId (elements.get ⟨i, hi⟩))
              (wid (k + i)) now
  | [], _, _, i, hi => by simp at hi
  | el :: rest, s, k, 0, hi => by
    refine ⟨by simp [createWorksFromTemplate], ?_⟩
    simp [createWorksFromTemplate, createWork]
  | el :: rest, s, k, i + 1, hi => by
    obtain ⟨hw, hget⟩ := createWorksFromTemplate_get modelId wid now rest
      (createWork s (workDataOfElement modelId el) (wid k) now).2 (k + 1) i
      (Nat.lt_of_succ_lt_succ hi)
    refine ⟨by simpa [createWorksFromTemplate] using Nat.succ_lt_succ hw, ?_⟩
    simp only [createWorksFromTemplate, List.get_cons_succ]
    rw [hget]
    congr 2
    omega

/-- Creating works from a template appends them to the store in order and
leaves the cost models untouched. -/
theorem createWorksFromTemplate_store (modelId : String)
    (wid : Nat → String) (now : String) :
    ∀ (elements : List NRM2Element) (s : Store) (k : Nat),
      (createWorksFromTemplate s modelId elements wid k now).2.measuredWorks
        = s.measuredWorks
            ++ (createWorksFromTemplate s modelId elements wid k now).1 ∧
      (createWorksFromTemplate s modelId elements wid k now).2.costModels
        = s.costModels
  | [], s, k => by simp [createWorksFromTemplate]
  | el :: rest, s, k => by
    obtain ⟨h1, h2⟩ := createWorksFromTemplate_store modelId wid now rest
      (createWork s (workDataOfElement modelId el) (wid k) now).2 (k + 1)
    constructor
    · simp only [createWorksFromTemplate]
      rw [h1]
      simp [createWork]
    · simp only [createWorksFromTemplate]
      rw [h2]
      simp [createWork]

/-- C6: the create-model endpoint yields a model with totalCost 0 together
with exactly one measured work per NRM2 template element, in template
order, each created with quantity 0 and unitRate 0 and hence totalCost 0,
all appended to the store. -/
theorem createModelHandler_spec (s : Store) (input : CreateModelInput)
    (template : List NRM2Element) (modelId : String) (wid : Nat → String)
    (now : String) :
    ((createModelHandler s input template modelId wid now).1).totalCost
        = 0 ∧
    (createModelHandler s input template modelId wid now).2.1.length
        = template.length ∧
    (createModelHandler s input template modelId wid now).2.2.measuredWorks
        = s.measuredWorks
            ++ (createModelHandler s input template modelId wid now).2.1 ∧
    ∀ i, ∀ hi : i < template.length,
      ∃ hw : i < (createModelHandler s input template modelId wid now).2.1.length,
        (((createModelHandler s input template modelId wid now).2.1.get
            ⟨i, hw⟩).quantity = 0) ∧
        (((createModelHandler s input template modelId wid now).2.1.get
            ⟨i, hw⟩).unitRate = 0) ∧
        (((createModelHandler s input template modelId wid now).2.1.get
            ⟨i, hw⟩).totalCost = 0) ∧
        (((createModelHandler s input template modelId wid now).2.1.get
            ⟨i, hw⟩).costModelId = modelId) ∧
        (((createModelHandler s input template modelId wid now).2.1.get
            ⟨i, hw⟩).elementCode = (template.get ⟨i, hi⟩).code) ∧
        (((createModelHandler s input template modelId wid now).2.1.get
            ⟨i, hw⟩).elementName = (template.get ⟨i, hi⟩).name) := by
  refine ⟨rfl, ?_, ?_, ?_⟩
  · exact createWorksFromTemplate_length modelId wid now template _ 0
  · have h := (createWorksFromTemplate_store modelId wid now template
      (createModel s
        { projectName := input.projectName
          projectRef := input.projectRef
          client := input.client
          gifa := input.gifa
          totalCost := 0
          status := input.status.getD Status.draft
          preparedBy := input.preparedBy } modelId now).2 0).1
    simpa [createModelHandler, createModel] using h
  · intro i hi
    obtain ⟨hw, hget⟩ := createWorksFromTemplate_get modelId wid now
      template
      (createModel s
        { projectName := input.projectName
          projectRef := input.projectRef
          client := input.client
          gifa := input.gifa
          totalCost := 0
          status := input.status.getD Status.draft
          preparedBy := input.preparedBy } modelId now).2 0 i hi
    refine ⟨hw, ?_⟩
    rw [show ((createModelHandler s input template modelId wid now).2.1.get
        ⟨i, hw⟩)
      = newWorkOf (workDataOfElement modelId (template.get ⟨i, hi⟩))
          (wid (0 + i)) now from hget]
    refine ⟨rfl, rfl, ?_, rfl, rfl, rfl⟩
    simp [newWorkOf, workDataOfElement]

def mId2 : String := "m2"

def demoInput : CreateModelInput :=
  { projectName := "Test"
    projectRef := none
    client := none
    gifa := some 100
    status := none
    preparedBy := none }

def demoTemplate : List NRM2Element :=
  [{ code := "1", name := "Substructure", suggestedUnit := "m2",
      description := none },
    { code := "2", name := "Superstructure", suggestedUnit := "m2",
      description := none }]

def demoWid : Nat → String := fun k => toString k

/-- Witness for C6: the first work created from a concrete two-element
template. -/
theorem createModelHandler_spec_witness :
    ∃ hw : 0 < (createModelHandler demoStore demoInput demoTemplate mId2
        demoWid tNew).2.1.length,
      (((createModelHandler demoStore demoInput demoTemplate mId2 demoWid
          tNew).2.1.get ⟨0, hw⟩).quantity = 0) ∧
      (((createModelHandler demoStore demoInput demoTemplate mId2 demoWid
          tNew).2.1.get ⟨0, hw⟩).unitRate = 0) ∧
      (((createModelHandler demoStore demoInput demoTemplate mId2 demoWid
          tNew).2.1.get ⟨0, hw⟩).totalCost = 0) ∧
      (((createModelHandler demoStore demoInput demoTemplate mId2 demoWid
          tNew).2.1.get ⟨0, hw⟩).costModelId = mId2) ∧
      (((createModelHandler demoStore demoInput demoTemplate mId2 demoWid
          tNew).2.1.get ⟨0, hw⟩).elementCode
        = (demoTemplate.get ⟨0, by decide⟩).code) ∧
      (((createModelHandler demoStore demoInput demoTemplate mId2 demoWid
          tNew).2.1.get ⟨0, hw⟩).elementName
        = (demoTemplate.get ⟨0, by decide⟩).name) :=
  (createModelHandler_spec demoStore demoInput demoTemplate mId2 demoWid
    tNew).2.2.2 0 (by decide)

/-- A createWork payload whose raw product 1/2 * 1/8 = 1/16 has more than
two decimal places. -/
def fracWorkData : CreateWorkData :=
  { costModelId := "m1"
    elementCode := "2.1"
    elementName := "Substructure"
    description := "d"
    quantity := 1 / 2
    unit := "m3"
    unitRate := 1 / 8
    notes := none }

/-- Counterexample to C4: createWork stores the raw product 1/16, which
differs from round2(1/16) = 6/100; the claimed rounding invariant fails
right after this create. -/
theorem createWork_round2_counterexample :
    ((createWork demoStore fracWorkData wId2 tNew).1).totalCost
      ≠ round2 (((createWork demoStore fracWorkData wId2 tNew).1).quantity
          * ((createWork demoStore fracWorkData wId2 tNew).1).unitRate) := by
  have h1 : ((createWork demoStore fracWorkData wId2 tNew).1).totalCost
      = 1 / 16 := by
    norm_num [createWork, newWorkOf, fracWorkData]
  have h2 : ((createWork demoStore fracWorkData wId2 tNew).1).quantity
      = 1 / 2 := rfl
  have h3 : ((createWork demoStore fracWorkData wId2 tNew).1).unitRate
      = 1 / 8 := rfl
  rw [h1, h2, h3, round2, if_pos (by norm_num)]
  have h4 : (⌊(1 / 2 : ℚ) * (1 / 8) * 100 + 1 / 2⌋ : ℤ) = 6 := by
    norm_num [Int.floor_eq_iff]
  rw [h4]
  norm_num

/-- C4 amended: immediately after createWork the entity satisfies
totalCost = quantity * unitRate exactly (the raw product, no rounding);
after updateWork the same raw-product identity holds whenever quantity or
unitRate was among the updated fields, and is preserved by updates that
touch neither field. -/
theorem work_totalCost_raw_product (s : Store) (id newId now : String)
    (data : CreateWorkData) (u : WorkUpdates) :
    ((createWork s data newId now).1).totalCost
        = ((createWork s data newId now).1).quantity
            * ((createWork s data newId now).1).unitRate ∧
    (∀ w0, findWorkById s id = some w0 →
      (u.quantity.isSome = true ∨ u.unitRate.isSome = true) →
      ∃ w1, (updateWork s id u now).1 = some w1 ∧
        w1.totalCost = w1.quantity * w1.unitRate) ∧
    (∀ w0, findWorkById s id = some w0 →
      w0.totalCost = w0.quantity * w0.unitRate →
      u.quantity = none → u.unitRate = none →
      ∃ w1, (updateWork s id u now).1 = some w1 ∧
        w1.totalCost = w1.quantity * w1.unitRate) := by
  refine ⟨rfl, ?_, ?_⟩
  · intro w0 h hsome
    have h2 : s.measuredWorks.find? (fun w => w.id == id) = some w0 := h
    refine ⟨workAfterUpdate w0 u now, by simp [updateWork, findWorkById, h2],
      workAfterUpdate_totalCost_recomputed w0 u now hsome⟩
  · intro w0 h hinv hq0 hr0
    have h2 : s.measuredWorks.find? (fun w => w.id == id) = some w0 := h
    obtain ⟨hid, hcm, hcr, hup, hec, hen, hde, hqu, hun, hur⟩ :=
      workAfterUpdate_fields w0 u now
    refine ⟨workAfterUpdate w0 u now, by simp [updateWork, findWorkById, h2],
      ?_⟩
    have e1 : (workAfterUpdate w0 u now).quantity = w0.quantity := by
      rw [hqu, hq0]
      rfl
    have e2 : (workAfterUpdate w0 u now).unitRate = w0.unitRate := by
      rw [hur, hr0]
      rfl
    rw [workAfterUpdate_totalCost_kept w0 u now hq0 hr0, e1, e2]
    exact hinv

/-- Witness for C4 amended: a create, a quantity update and a notes-only
update on the concrete store all satisfy the raw-product identity. -/
theorem work_totalCost_raw_product_witness :
    (((createWork demoStore demoWorkData wId2 tNew).1).totalCost
        = ((createWork demoStore demoWorkData wId2 tNew).1).quantity
            * ((createWork demoStore demoWorkData wId2 tNew).1).unitRate) ∧
    (∃ w1, (updateWork demoStore wId demoQuantityUpdate tNew).1 = some w1 ∧
      w1.totalCost = w1.quantity * w1.unitRate) ∧
    (∃ w1, (updateWork demoStore wId (notesOnly demoNote) tNew).1 = some w1 ∧
      w1.totalCost = w1.quantity * w1.unitRate) :=
  ⟨(work_totalCost_raw_product demoStore wId wId2 tNew demoWorkData
      demoQuantityUpdate).1,
    (work_totalCost_raw_product demoStore wId wId2 tNew demoWorkData
      demoQuantityUpdate).2.1 demoWork (by decide) (by decide),
    (work_totalCost_raw_product demoStore wId wId2 tNew demoWorkData
      (notesOnly demoNote)).2.2 demoWork (by decide)
      (by norm_num [demoWork]) rfl rfl⟩

/-- Counterexample to C8: at quantity 1 and rate -1/8 the helper rounds
the half toward plus infinity and returns -0.12, while rounding
half-away-from-zero to 2 decimal places gives -0.13. -/
theorem calculateCost_round2_counterexample :
    calculateCost 1 (-(1 / 8)) ≠ round2 ((1 : ℚ) * -(1 / 8)) := by
  have h1 : calculateCost 1 (-(1 / 8))
      = (⌊((1 : ℚ) * -(1 / 8) + eps) * 100 + 1 / 2⌋ : ℚ) / 100 := rfl
  have h2 : (⌊((1 : ℚ) * -(1 / 8) + eps) * 100 + 1 / 2⌋ : ℤ) = -12 := by
    norm_num [Int.floor_eq_iff, eps]
  have h3 : (⌊-((1 : ℚ) * -(1 / 8)) * 100 + 1 / 2⌋ : ℤ) = 13 := by
    norm_num [Int.floor_eq_iff]
  rw [h1, round2, if_neg (by norm_num), h2, h3]
  norm_num

/-- C8 amended: for every quantity q and rate r whose product is
non-negative and whose product times 100 does not have its fractional
part inside the width-100*eps window just below one half, calculateCost
returns round2(q * r), the half-away-from-zero rounding to 2 decimal
places (on non-negative inputs half-away-from-zero and the code's
half-up coincide).  For negative products the code rounds halves toward
plus infinity instead, and inside the window the Number.EPSILON offset
bumps the result up by one cent. -/
theorem calculateCost_round2_agreement (q r : ℚ) (h0 : 0 ≤ q * r)
    (hfar : Int.fract (q * r * 100) < 1 / 2 - 100 * eps ∨
      1 / 2 ≤ Int.fract (q * r * 100)) :
    calculateCost q r = round2 (q * r) := by
  have hepspos : (0 : ℚ) < eps := by norm_num [eps]
  have hepssmall : (100 : ℚ) * eps < 1 / 2 := by norm_num [eps]
  have hfr0 : 0 ≤ Int.fract (q * r * 100) := Int.fract_nonneg _
  have hfr1 : Int.fract (q * r * 100) < 1 := Int.fract_lt_one _
  have hx : (↑⌊q * r * 100⌋ : ℚ) + Int.fract (q * r * 100) = q * r * 100 :=
    Int.floor_add_fract _
  have key : ⌊(q * r + eps) * 100 + 1 / 2⌋ = ⌊q * r * 100 + 1 / 2⌋ := by
    have harg : (q * r + eps) * 100 + 1 / 2
        = q * r * 100 + 100 * eps + 1 / 2 := by ring
    rw [harg]
    rcases hfar with hlt | hge
    · have e1 : ⌊q * r * 100 + 1 / 2⌋ = ⌊q * r * 100⌋ := by
        rw [Int.floor_eq_iff]
        constructor
        · linarith [Int.floor_le (q * r * 100)]
        · linarith
      have e2 : ⌊q * r * 100 + 100 * eps + 1 / 2⌋ = ⌊q * r * 100⌋ := by
        rw [Int.floor_eq_iff]
        constructor
        · linarith [Int.floor_le (q * r * 100)]
        · linarith
      rw [e1, e2]
    · have e1 : ⌊q * r * 100 + 1 / 2⌋ = ⌊q * r * 100⌋ + 1 := by
        rw [Int.floor_eq_iff]
        constructor
        · push_cast
          linarith
        · push_cast
          linarith
      have e2 : ⌊q * r * 100 + 100 * eps + 1 / 2⌋ = ⌊q * r * 100⌋ + 1 := by
        rw [Int.floor_eq_iff]
        constructor
        · push_cast
          linarith
        · push_cast
          linarith
      rw [e1, e2]
  have hcalc : calculateCost q r
      = (⌊(q * r + eps) * 100 + 1 / 2⌋ : ℚ) / 100 := rfl
  rw [hcalc, key, round2, if_pos h0]

/-- Witness for C8 amended: quantity 1, rate 1/8 (an exact half-cent,
fractional part exactly one half), where both sides give 0.13. -/
theorem calculateCost_round2_agreement_witness :
    (0 ≤ (1 : ℚ) * (1 / 8)) ∧
    (1 / 2 ≤ Int.fract ((1 : ℚ) * (1 / 8) * 100)) ∧
    calculateCost 1 (1 / 8) = round2 ((1 : ℚ) * (1 / 8)) := by
  have h12 : (⌊((1 : ℚ) * (1 / 8) * 100)⌋ : ℤ) = 12 := by
    norm_num [Int.floor_eq_iff]
  have hf : 1 / 2 ≤ Int.fract ((1 : ℚ) * (1 / 8) * 100) := by
    rw [Int.fract, h12]
    norm_num
  exact ⟨by norm_num, hf,
    calculateCost_round2_agreement 1 (1 / 8) (by norm_num) (Or.inr hf)⟩

end CostModelApp
